import Mathlib

/-!
Shallow embedding of the gameplay logic of `Unicorn_dash/unicorn_dash.py`
(the enhanced Unicorn Dash endless runner).

Modelling conventions:
* Python floats/ints are embedded as exact rationals `ℚ` (integers where the
  source only ever holds integers); Python `//` and `%` are floor division
  and floor modulus, embedded via `Int.floor`.
* Purely visual state (particles, rainbow trails, leg/mane animation timers,
  clouds, screen shake, fonts, sounds, drawing) is omitted: it is never read
  by the gameplay logic under verification.
* `random.random()` / `random.choice` / `random.randint` draws are
  determinized through an `Oracle` record passed into the tick function.
* `pygame.Rect.colliderect` is modelled as strict rectangle overlap on exact
  coordinates (pygame's int truncation of coordinates is abstracted away).
-/

namespace UnicornDash

/-- `CONFIG['screen']['width']` -/
def SCREEN_WIDTH : ℚ := 900

/-- `CONFIG['screen']['height']` -/
def SCREEN_HEIGHT : ℚ := 500

/-- `CONFIG['screen']['ground_height']` -/
def GROUND_HEIGHT : ℚ := 60

/-- `CONFIG['unicorn']['width']` -/
def unicornWidth : ℚ := 70

/-- `CONFIG['unicorn']['height']` -/
def unicornNormalHeight : ℚ := 60

/-- `CONFIG['unicorn']['duck_height']` -/
def unicornDuckHeight : ℚ := 35

/-- `CONFIG['unicorn']['x_position']` -/
def unicornXPosition : ℚ := 100

/-- `CONFIG['unicorn']['max_jumps']` -/
def maxJumps : ℕ := 2

/-- `CONFIG['collectibles']['star_value']` -/
def starValue : ℕ := 50

/-- `CONFIG['collectibles']['coin_value']` -/
def coinValue : ℕ := 25

/-- `CONFIG['powerups']['shield_duration']` -/
def shieldDuration : ℤ := 300

/-- `CONFIG['powerups']['magnet_duration']` -/
def magnetDuration : ℤ := 400

/-- `CONFIG['powerups']['magnet_range']` -/
def magnetRange : ℚ := 150

/-- `CONFIG['effects']['death_animation_duration']` -/
def deathAnimationDuration : ℤ := 60

/-- Python floor division `a // b` (also for floats). -/
def pyFloorDiv (a b : ℚ) : ℚ := (⌊a / b⌋ : ℤ)

/-- Python modulus `a % b` for positive `b`: `a - b * ⌊a / b⌋`. -/
def pyMod (a b : ℚ) : ℚ := a - b * (⌊a / b⌋ : ℤ)

/-- The three difficulty names in `DIFFICULTIES`. -/
inductive Difficulty
  | EASY
  | NORMAL
  | HARD
deriving DecidableEq, Repr

/-- One entry of the `DIFFICULTIES` dictionary (gameplay fields only;
`name` and `color` are presentation). -/
structure DifficultyProfile where
  initial_speed : ℚ
  max_speed : ℚ
  speed_increment : ℚ
  min_obstacle_gap : ℤ
  gravity : ℚ
  jump_strength : ℚ
deriving DecidableEq, Repr

/-- The `DIFFICULTIES` dictionary. -/
def DIFFICULTIES : Difficulty → DifficultyProfile
  | .EASY => ⟨7, 12, 8/10000, 90, 7/10, -16⟩
  | .NORMAL => ⟨9, 16, 12/10000, 70, 85/100, -17⟩
  | .HARD => ⟨12, 22, 2/1000, 50, 1, -18⟩

/-- An axis-aligned rectangle, as built by `pygame.Rect(x, y, w, h)`. -/
structure Rect where
  x : ℚ
  y : ℚ
  w : ℚ
  h : ℚ
deriving DecidableEq, Repr

/-- `pygame.Rect.colliderect`: strict overlap in both axes. -/
def Rect.overlaps (a b : Rect) : Bool :=
  decide (b.x < a.x + a.w) && decide (a.x < b.x + b.w) &&
  decide (b.y < a.y + a.h) && decide (a.y < b.y + b.h)

/-- Player state (`class Unicorn`), gameplay fields only. -/
structure Unicorn where
  x : ℚ
  y : ℚ
  height : ℚ
  velocity_y : ℚ
  is_jumping : Bool
  is_ducking : Bool
  jump_count : ℕ
  difficulty : Difficulty
  shield_active : Bool
  shield_timer : ℤ
  magnet_active : Bool
  magnet_timer : ℤ
  is_dying : Bool
  death_timer : ℤ
  death_rotation : ℚ
  death_velocity_y : ℚ
  death_velocity_x : ℚ
deriving DecidableEq, Repr

/-- `Unicorn.__init__(difficulty)`. -/
def Unicorn.init (d : Difficulty) : Unicorn where
  x := unicornXPosition
  y := SCREEN_HEIGHT - GROUND_HEIGHT - unicornNormalHeight
  height := unicornNormalHeight
  velocity_y := 0
  is_jumping := false
  is_ducking := false
  jump_count := 0
  difficulty := d
  shield_active := false
  shield_timer := 0
  magnet_active := false
  magnet_timer := 0
  is_dying := false
  death_timer := 0
  death_rotation := 0
  death_velocity_y := -10
  death_velocity_x := 2

/-- `Unicorn.stand_up`. -/
def Unicorn.stand_up (u : Unicorn) : Unicorn :=
  if u.is_ducking then
    { u with is_ducking := false
             height := unicornNormalHeight
             y := SCREEN_HEIGHT - GROUND_HEIGHT - unicornNormalHeight }
  else u

/-- `Unicorn.jump` (sound/particle effects dropped); returns the Python
return value together with the updated state. -/
def Unicorn.jump (u : Unicorn) : Bool × Unicorn :=
  if u.is_dying then (false, u)
  else if u.is_ducking then (false, u.stand_up)
  else if u.jump_count < maxJumps then
    (true, { u with velocity_y := (DIFFICULTIES u.difficulty).jump_strength
                    is_jumping := true
                    jump_count := u.jump_count + 1 })
  else (false, u)

/-- `Unicorn.duck` (sound dropped). -/
def Unicorn.duck (u : Unicorn) : Bool × Unicorn :=
  if !u.is_jumping && !u.is_ducking && !u.is_dying then
    (true, { u with is_ducking := true
                    height := unicornDuckHeight
                    y := SCREEN_HEIGHT - GROUND_HEIGHT - unicornDuckHeight })
  else (false, u)

/-- `Unicorn.start_death_animation`. -/
def Unicorn.start_death_animation (u : Unicorn) : Unicorn :=
  { u with is_dying := true
           death_timer := deathAnimationDuration
           death_velocity_y := -8 }

/-- `Unicorn.activate_shield`. -/
def Unicorn.activate_shield (u : Unicorn) : Unicorn :=
  { u with shield_active := true, shield_timer := shieldDuration }

/-- `Unicorn.activate_magnet`. -/
def Unicorn.activate_magnet (u : Unicorn) : Unicorn :=
  { u with magnet_active := true, magnet_timer := magnetDuration }

/-- The shield countdown block at the end of `Unicorn.update`:
`shield_timer -= 1; if shield_timer <= 0: shield_active = False`. -/
def shieldTick : Bool × ℤ → Bool × ℤ
  | (active, t) =>
    if active then
      let t' := t - 1
      if t' ≤ 0 then (false, t') else (active, t')
    else (active, t)

/-- The magnet countdown block at the end of `Unicorn.update`. -/
def magnetTick : Bool × ℤ → Bool × ℤ
  | (active, t) =>
    if active then
      let t' := t - 1
      if t' ≤ 0 then (false, t') else (active, t')
    else (active, t)

/-- Apply both power-up countdowns to the player's fields. -/
def Unicorn.tickPowerups (u : Unicorn) : Unicorn :=
  let s := shieldTick (u.shield_active, u.shield_timer)
  let m := magnetTick (u.magnet_active, u.magnet_timer)
  { u with shield_active := s.1, shield_timer := s.2
           magnet_active := m.1, magnet_timer := m.2 }

/-- `Unicorn.update(game_speed)`; `downHeld` stands for
`pygame.key.get_pressed()[pygame.K_DOWN]` polled inside the ground branch.
Visual-only updates (legs, mane, particles, rainbow trail) are dropped;
`game_speed` is only consumed by the dropped rainbow-trail update, so it is
not a parameter here. -/
def Unicorn.update (downHeld : Bool) (u : Unicorn) : Unicorn :=
  if u.is_dying then
    { u with death_timer := u.death_timer - 1
             death_rotation := u.death_rotation + 15
             death_velocity_y := u.death_velocity_y + 1/2
             y := u.y + (u.death_velocity_y + 1/2)
             x := u.x + u.death_velocity_x }
  else
    let gravity := (DIFFICULTIES u.difficulty).gravity
    let v := u.velocity_y + gravity
    let y' := u.y + v
    let ground_y := SCREEN_HEIGHT - GROUND_HEIGHT - u.height
    let u1 :=
      if y' ≥ ground_y then
        let u' := { u with y := ground_y
                           velocity_y := 0
                           is_jumping := false
                           jump_count := 0 }
        if u'.is_ducking && !downHeld then u'.stand_up else u'
      else
        { u with y := y', velocity_y := v }
    u1.tickPowerups

/-- `Unicorn.get_rect` (fairness-adjusted hit-box). -/
def Unicorn.get_rect (u : Unicorn) : Rect :=
  if u.is_ducking then
    ⟨u.x + 10, u.y + 5, unicornWidth - 15, u.height - 5⟩
  else
    ⟨u.x + 15, u.y + 10, unicornWidth - 25, u.height - 15⟩

/-- The four `Rock` variants (`random.choice(['small','medium','large','crystal'])`). -/
inductive RockVariant
  | small
  | medium
  | large
  | crystal
deriving DecidableEq, Repr

/-- Obstacle kind: a `Rock` of some variant, or a `Dragon` (with its
`can_duck_under` flag). -/
inductive ObstacleKind
  | rock (variant : RockVariant)
  | dragon (can_duck_under : Bool)
deriving DecidableEq, Repr

/-- A live obstacle (`Rock` / `Dragon`), gameplay fields only. -/
structure Obstacle where
  kind : ObstacleKind
  x : ℚ
  y : ℚ
  width : ℚ
  height : ℚ
deriving DecidableEq, Repr

/-- `Rock.__init__(x, variant)`: size table and ground placement. -/
def mkRock (x : ℚ) (variant : RockVariant) : Obstacle :=
  let wh : ℚ × ℚ :=
    match variant with
    | .small => (30, 35)
    | .medium => (40, 50)
    | .large => (55, 65)
    | .crystal => (35, 55)
  { kind := .rock variant, x := x, y := SCREEN_HEIGHT - GROUND_HEIGHT - wh.2
    width := wh.1, height := wh.2 }

/-- `Dragon.__init__(x, force_high)`: altitude choice and duck flag.
`altChoice` determinizes `random.choice` over the three altitudes. -/
def mkDragon (x : ℚ) (force_high : Bool) (altChoice : Fin 3) : Obstacle :=
  let y : ℚ :=
    if force_high then SCREEN_HEIGHT - GROUND_HEIGHT - 60
    else
      match altChoice with
      | 0 => SCREEN_HEIGHT - GROUND_HEIGHT - 60
      | 1 => SCREEN_HEIGHT - GROUND_HEIGHT - 100
      | 2 => SCREEN_HEIGHT - GROUND_HEIGHT - 140
  let can_duck : Bool :=
    if force_high then true
    else decide (y ≥ SCREEN_HEIGHT - GROUND_HEIGHT - 70)
  { kind := .dragon can_duck, x := x, y := y, width := 60, height := 40 }

/-- `Rock.update` / `Dragon.update` (dragons move at `1.3 ×` game speed;
visual wing/fire state dropped). -/
def Obstacle.update (speed : ℚ) (o : Obstacle) : Obstacle :=
  match o.kind with
  | .rock _ => { o with x := o.x - speed }
  | .dragon _ => { o with x := o.x - speed * (13/10) }

/-- `Rock.is_off_screen` / `Dragon.is_off_screen`: `x + width < 0`. -/
def Obstacle.is_off_screen (o : Obstacle) : Bool :=
  decide (o.x + o.width < 0)

/-- `Rock.get_rect` / `Dragon.get_rect`. -/
def Obstacle.get_rect (o : Obstacle) : Rect :=
  match o.kind with
  | .rock _ => ⟨o.x + 5, o.y + 10, o.width - 10, o.height - 10⟩
  | .dragon _ => ⟨o.x + 10, o.y + 10, o.width - 15, o.height - 15⟩

/-- Collectible kind (`Star` / `Coin`). -/
inductive CollKind
  | star
  | coin
deriving DecidableEq, Repr

/-- A live collectible; width/height/value are fixed per kind by the
constructors, so they are derived functions here (visual float/rotation
state dropped). -/
structure Collectible where
  kind : CollKind
  x : ℚ
  y : ℚ
  collected : Bool
deriving DecidableEq, Repr

/-- `Star` sets `width = height = 30`; the base class (kept by `Coin`) uses 25. -/
def Collectible.width (c : Collectible) : ℚ :=
  match c.kind with
  | .star => 30
  | .coin => 25

/-- Same table as `Collectible.width`. -/
def Collectible.height (c : Collectible) : ℚ :=
  match c.kind with
  | .star => 30
  | .coin => 25

/-- `self.value`: 50 for a `Star`, 25 for a `Coin`. -/
def Collectible.value (c : Collectible) : ℕ :=
  match c.kind with
  | .star => starValue
  | .coin => coinValue

/-- `Star.__init__` / `Coin.__init__`: `collected = False`. -/
def mkCollectible (kind : CollKind) (x y : ℚ) : Collectible :=
  { kind := kind, x := x, y := y, collected := false }

/-- `Collectible.update`: `x -= speed` (rotation dropped). -/
def Collectible.update (speed : ℚ) (c : Collectible) : Collectible :=
  { c with x := c.x - speed }

/-- `Collectible.is_off_screen`: `x + width < 0`. -/
def Collectible.is_off_screen (c : Collectible) : Bool :=
  decide (c.x + c.width < 0)

/-- `Collectible.get_rect`. -/
def Collectible.get_rect (c : Collectible) : Rect :=
  ⟨c.x, c.y, c.width, c.height⟩

/-- Power-up kind (`'shield'` / `'magnet'`). -/
inductive PowerKind
  | shield
  | magnet
deriving DecidableEq, Repr

/-- A live power-up (`class PowerUp`): `width = height = 35`. -/
structure PowerUp where
  kind : PowerKind
  x : ℚ
  y : ℚ
  collected : Bool
deriving DecidableEq, Repr

/-- `PowerUp.__init__`: `collected = False`. -/
def mkPowerUp (kind : PowerKind) (x y : ℚ) : PowerUp :=
  { kind := kind, x := x, y := y, collected := false }

/-- `PowerUp.update`: `x -= speed`. -/
def PowerUp.update (speed : ℚ) (p : PowerUp) : PowerUp :=
  { p with x := p.x - speed }

/-- `PowerUp.is_off_screen`: `x + width < 0`. -/
def PowerUp.is_off_screen (p : PowerUp) : Bool :=
  decide (p.x + 35 < 0)

/-- `PowerUp.get_rect`. -/
def PowerUp.get_rect (p : PowerUp) : Rect :=
  ⟨p.x, p.y, 35, 35⟩

/-- Determinized per-tick randomness and polled input of `Game.update`:
the `random.random()` draws consumed by spawning, the `random.choice` /
`randint` selections, the `DOWN`-key poll inside `Unicorn.update`, and an
approximation function standing for float `math.sqrt` in the magnet block. -/
structure Oracle where
  downHeld : Bool
  sqrtA : ℚ → ℚ
  obstacleRoll1 : ℚ
  obstacleRoll2 : ℚ
  obstacleRoll3 : ℚ
  rockVariant : RockVariant
  dragonAlt : Fin 3
  collectibleRoll : ℚ
  collKindRoll : ℚ
  collAlt : Fin 3
  powerupRoll : ℚ
  powerKindChoice : PowerKind
  powerYOffset : ℚ

/-- Session state of `class Game` consumed by the gameplay logic
(high-score store, fonts, sounds, clouds, particles and screen shake are
external collaborators / visual state and are not modelled). -/
structure Game where
  difficulty : Difficulty
  unicorn : Unicorn
  obstacles : List Obstacle
  collectibles : List Collectible
  powerups : List PowerUp
  score : ℕ
  coins_collected : ℕ
  game_speed : ℚ
  game_over : Bool
  obstacle_timer : ℕ
  ground_offset : ℚ
  show_menu : Bool
  paused : Bool
deriving DecidableEq, Repr

/-- `Game.reset_game` (with the current `self.difficulty` passed in). -/
def resetGame (d : Difficulty) : Game where
  difficulty := d
  unicorn := Unicorn.init d
  obstacles := []
  collectibles := []
  powerups := []
  score := 0
  coins_collected := 0
  game_speed := (DIFFICULTIES d).initial_speed
  game_over := false
  obstacle_timer := 0
  ground_offset := 0
  show_menu := true
  paused := false

/-- `Game.spawn_obstacle`: dragon with probability `min(0.35, score/4000)`
once `score > 300`, else crystal rock with probability 0.2, else a rock of
a random variant; all spawned at `SCREEN_WIDTH + 50`. -/
def spawnObstacle (ω : Oracle) (score : ℕ) : Obstacle :=
  let dragon_chance : ℚ := min (35/100) ((score : ℚ) / 4000)
  if ω.obstacleRoll1 < dragon_chance ∧ score > 300 then
    mkDragon (SCREEN_WIDTH + 50) (decide (ω.obstacleRoll2 < 3/10)) ω.dragonAlt
  else if ω.obstacleRoll3 < 2/10 then
    mkRock (SCREEN_WIDTH + 50) .crystal
  else
    mkRock (SCREEN_WIDTH + 50) ω.rockVariant

/-- `Game.spawn_collectible`: one of three altitude bands; `Star` with
probability 0.3, else `Coin`; spawned at `SCREEN_WIDTH + 50`. -/
def spawnCollectible (ω : Oracle) : Collectible :=
  let y : ℚ :=
    match ω.collAlt with
    | 0 => SCREEN_HEIGHT - GROUND_HEIGHT - 50
    | 1 => SCREEN_HEIGHT - GROUND_HEIGHT - 100
    | 2 => SCREEN_HEIGHT - GROUND_HEIGHT - 150
  if ω.collKindRoll < 3/10 then
    mkCollectible .star (SCREEN_WIDTH + 50) y
  else
    mkCollectible .coin (SCREEN_WIDTH + 50) y

/-- `Game.spawn_powerup`: `y = SCREEN_HEIGHT - GROUND_HEIGHT -
randint(80, 140)` (the drawn offset comes from the oracle), uniform kind. -/
def spawnPowerUp (ω : Oracle) : PowerUp :=
  mkPowerUp ω.powerKindChoice (SCREEN_WIDTH + 50)
    (SCREEN_HEIGHT - GROUND_HEIGHT - ω.powerYOffset)

/-- The magnet attraction applied to one collectible
(`Game.update`, magnet block): pull toward the player's center when
`0 < dist < magnet_range`, by `8 * (1 - dist/range)` along the normalized
direction.  `sqrtA` stands for `math.sqrt`. -/
def magnetPull (sqrtA : ℚ → ℚ) (ucx ucy : ℚ) (c : Collectible) : Collectible :=
  let dx := ucx - c.x
  let dy := ucy - c.y
  let dist := sqrtA (dx * dx + dy * dy)
  if dist < magnetRange ∧ dist > 0 then
    let speed := 8 * (1 - dist / magnetRange)
    { c with x := c.x + dx / dist * speed, y := c.y + dy / dist * speed }
  else c

/-- The obstacle-collision loop of `Game.update`, with Python's index-based
iterator semantics: when the shield consumes an obstacle,
`self.obstacles.remove(obstacle)` shifts the list so the iterator skips the
next element (it is kept but not collision-checked this tick); a shieldless
hit starts the death animation and `return`s (the flag in the result).
Returns (player, died, surviving obstacle list). -/
def obstacleCollisions (u : Unicorn) : List Obstacle → Unicorn × Bool × List Obstacle
  | [] => (u, false, [])
  | o :: rest =>
    if (u.get_rect).overlaps o.get_rect then
      if u.shield_active then
        let u' := { u with shield_active := false, shield_timer := 0 }
        match rest with
        | [] => (u', false, [])
        | o1 :: rest' =>
          let r := obstacleCollisions u' rest'
          (r.1, r.2.1, o1 :: r.2.2)
      else
        (u.start_death_animation, true, o :: rest)
    else
      let r := obstacleCollisions u rest
      (r.1, r.2.1, o :: r.2.2)

/-- The collectible-collision loop of `Game.update`: each colliding
collectible is marked `collected`, adds its value to `score`, and bumps
`coins_collected` by one.  Returns (list, score, coins_collected). -/
def collectibleCollisions (r : Rect) (score coins : ℕ) :
    List Collectible → List Collectible × ℕ × ℕ
  | [] => ([], score, coins)
  | c :: rest =>
    if r.overlaps c.get_rect then
      let t := collectibleCollisions r (score + c.value) (coins + 1) rest
      ({ c with collected := true } :: t.1, t.2.1, t.2.2)
    else
      let t := collectibleCollisions r score coins rest
      (c :: t.1, t.2.1, t.2.2)

/-- The power-up-collision loop of `Game.update`: each colliding power-up is
marked `collected` and activates its effect on the player. -/
def powerupCollisions (u : Unicorn) : List PowerUp → Unicorn × List PowerUp
  | [] => (u, [])
  | p :: rest =>
    if (u.get_rect).overlaps p.get_rect then
      let u' := match p.kind with
        | .shield => u.activate_shield
        | .magnet => u.activate_magnet
      let t := powerupCollisions u' rest
      (t.1, { p with collected := true } :: t.2)
    else
      let t := powerupCollisions u rest
      (t.1, p :: t.2)

/-- `self.game_speed = min(max_speed, initial_speed + score * speed_increment)`. -/
def computeGameSpeed (d : DifficultyProfile) (score : ℕ) : ℚ :=
  min d.max_speed (d.initial_speed + (score : ℚ) * d.speed_increment)

/-- The magnet block of `Game.update`: when the magnet is active, every
live collectible is pulled toward the (updated) player's center
`(x + width // 2, y + height // 2)`. -/
def magnetStep (ω : Oracle) (u : Unicorn) (l : List Collectible) : List Collectible :=
  if u.magnet_active then
    l.map (magnetPull ω.sqrtA (u.x + pyFloorDiv unicornWidth 2)
      (u.y + pyFloorDiv u.height 2))
  else l

/-- `Game.update` obstacle movement and pruning: move every obstacle, then
keep the ones with `not o.is_off_screen()`. -/
def movePruneObstacles (speed : ℚ) (l : List Obstacle) : List Obstacle :=
  (l.map (Obstacle.update speed)).filter (fun o => !o.is_off_screen)

/-- `Game.update` collectible movement and pruning: move, then keep those
neither off-screen nor collected. -/
def movePruneCollectibles (speed : ℚ) (l : List Collectible) : List Collectible :=
  (l.map (Collectible.update speed)).filter (fun c => !c.is_off_screen && !c.collected)

/-- `Game.update` power-up movement and pruning. -/
def movePrunePowerups (speed : ℚ) (l : List PowerUp) : List PowerUp :=
  (l.map (PowerUp.update speed)).filter (fun p => !p.is_off_screen && !p.collected)

/-- `gap = max(diff['min_obstacle_gap'], 100 - self.score // 150)`. -/
def spawnGap (d : DifficultyProfile) (score : ℕ) : ℤ :=
  max d.min_obstacle_gap (100 - (score / 150 : ℕ))

/-- The obstacle-timer test `self.obstacle_timer > gap` after this tick's
increment. -/
def spawnFires (g : Game) : Bool :=
  decide (((g.obstacle_timer + 1 : ℕ) : ℤ) > spawnGap (DIFFICULTIES g.difficulty) g.score)

/-- Live obstacles after movement, pruning and the timed spawn (the state
the obstacle-collision loop scans). -/
def obstaclesPreCollision (ω : Oracle) (g : Game) : List Obstacle :=
  let l := movePruneObstacles g.game_speed g.obstacles
  if spawnFires g then l ++ [spawnObstacle ω g.score] else l

/-- Live collectibles after the magnet pull, movement, pruning and the
Bernoulli spawn (`random.random() < 0.015`). -/
def collectiblesPreCollision (ω : Oracle) (u : Unicorn) (g : Game) : List Collectible :=
  let l := movePruneCollectibles g.game_speed (magnetStep ω u g.collectibles)
  if ω.collectibleRoll < 15/1000 then l ++ [spawnCollectible ω] else l

/-- Live power-ups after movement, pruning and the Bernoulli spawn
(`random.random() < 0.005 and self.score > 200`). -/
def powerupsPreCollision (ω : Oracle) (g : Game) : List PowerUp :=
  let l := movePrunePowerups g.game_speed g.powerups
  if ω.powerupRoll < 5/1000 ∧ g.score > 200 then l ++ [spawnPowerUp ω] else l

/-- The playing branch of `Game.update` (reached when not in menu, not
paused, not game over), statement for statement in source order:
player physics; magnet attraction; obstacle/collectible/power-up movement
and pruning; obstacle-timer spawn; collectible and power-up Bernoulli
spawns; obstacle collisions (an unshielded hit `return`s with
`game_over = True`, skipping everything below); collectible and power-up
collisions; `score += 1`; game-speed recompute; ground-offset advance.
Cloud and particle updates are visual-only and dropped; the high-score
write on death is an external collaborator and dropped. -/
def gameTick (ω : Oracle) (g : Game) : Game :=
  let diff := DIFFICULTIES g.difficulty
  let u := g.unicorn.update ω.downHeld
  let obs2 := obstaclesPreCollision ω g
  let cs2 := collectiblesPreCollision ω u g
  let ps2 := powerupsPreCollision ω g
  let timer2 := if spawnFires g then 0 else g.obstacle_timer + 1
  let oc := obstacleCollisions u obs2
  if oc.2.1 then
    { g with unicorn := oc.1, obstacles := oc.2.2, collectibles := cs2
             powerups := ps2, obstacle_timer := timer2, game_over := true }
  else
    let cc := collectibleCollisions (oc.1).get_rect g.score g.coins_collected cs2
    let pc := powerupCollisions oc.1 ps2
    let score' := cc.2.1 + 1
    let speed' := computeGameSpeed diff score'
    { g with unicorn := pc.1, obstacles := oc.2.2, collectibles := cc.1
             powerups := pc.2, score := score', coins_collected := cc.2.2
             game_speed := speed', obstacle_timer := timer2
             ground_offset := pyMod (g.ground_offset + speed') 30 }

/-- `Game.update` top level: menu/pause branch (visual particle churn
dropped), game-over branch (death animation continues until its timer
expires), else the playing tick. -/
def Game.update (ω : Oracle) (g : Game) : Game :=
  if g.show_menu || g.paused then g
  else if g.game_over then
    if g.unicorn.is_dying then
      let u := g.unicorn.update ω.downHeld
      { g with unicorn := if u.death_timer ≤ 0 then { u with is_dying := false } else u }
    else g
  else gameTick ω g

/-- The high-score file as the loader sees it: absent
(`FileNotFoundError`), unparsable (`json.JSONDecodeError`), or a valid
mapping of difficulty names to best scores. -/
inductive ScoreFile
  | absent
  | corrupt
  | valid (easy normal hard : ℕ)
deriving DecidableEq, Repr

/-- The mapping returned by `Game._load_high_scores`. -/
structure HighScores where
  easy : ℕ
  normal : ℕ
  hard : ℕ
deriving DecidableEq, Repr

/-- `Game._load_high_scores`: `json.load` of the score file, with
`FileNotFoundError` and `json.JSONDecodeError` handled by returning
`{'EASY': 0, 'NORMAL': 0, 'HARD': 0}`. -/
def loadHighScores : ScoreFile → HighScores
  | .valid e n h => ⟨e, n, h⟩
  | _ => ⟨0, 0, 0⟩

/-- The active profile's speed bounds hold of the session's `game_speed`. -/
def speedInBounds (g : Game) : Prop :=
  (DIFFICULTIES g.difficulty).initial_speed ≤ g.game_speed ∧
  g.game_speed ≤ (DIFFICULTIES g.difficulty).max_speed

instance (g : Game) : Decidable (speedInBounds g) := by
  unfold speedInBounds
  infer_instance

/-- A concrete oracle for witness instantiations: no spawn roll fires,
no key held. -/
def oracleW : Oracle where
  downHeld := false
  sqrtA := fun _ => 0
  obstacleRoll1 := 1
  obstacleRoll2 := 1
  obstacleRoll3 := 1
  rockVariant := .small
  dragonAlt := 0
  collectibleRoll := 1
  collKindRoll := 1
  collAlt := 0
  powerupRoll := 1
  powerKindChoice := .shield
  powerYOffset := 100

/-- A concrete playing-state session (NORMAL difficulty, menu dismissed). -/
def playingW : Game := { resetGame .NORMAL with show_menu := false }

/-- A ducking player state used to witness C8. -/
def duckingW : Unicorn := (Unicorn.init .HARD).duck.2

/-- A hit-box covering the whole screen, used to witness C10. -/
def wideRectW : Rect := ⟨-1000, -1000, 3000, 3000⟩

/-- A playing state holding one on-screen rock, used to witness C6. -/
def gameC6W : Game := { playingW with obstacles := [mkRock 500 RockVariant.small] }

/-- The rock of `gameC6W` after one tick of movement at NORMAL speed 9. -/
def rockC6W : Obstacle :=
  { kind := .rock RockVariant.small, x := 491, y := 405, width := 30, height := 35 }

/-- An airborne player (one jump consumed), used to witness C2. -/
def uAirW : Unicorn := ((Unicorn.init .NORMAL).jump).2

/-- A shielded grounded player, used to witness C3. -/
def uShieldW : Unicorn :=
  { Unicorn.init .NORMAL with shield_active := true, shield_timer := 300 }

/-- A rock placed on the player, used to witness C3. -/
def rockHitW : Obstacle := mkRock 100 RockVariant.small

/-- An exact square root oracle for the 30-40-50 triangle, witnessing C7. -/
def sqrtW : ℚ → ℚ := fun q => if q = 2500 then 50 else 0

/-- The collectible of the C7 witness (player center at `(100, 100)`,
collectible at `(70, 60)`, distance 50). -/
def collC7W : Collectible := mkCollectible .coin 70 60

/-- The coin of the C5 counterexample, placed to intersect the player
after one tick of movement. -/
def collC5W : Collectible := mkCollectible .coin 130 390

/-- The playing state of the C5 counterexample. -/
def gameC5W : Game := { playingW with collectibles := [collC5W] }

/-- Modelled from the spec: the claimed per-frame order "update Player
physics, run Spawner, update/prune all entity lists, run Collision &
Scoring, increment score and recompute game_speed, advance ground-scroll" —
i.e. the Spawner runs *before* the movement/pruning step, so a
freshly spawned entity is moved (and prune-tested) in its spawn tick.
Every sub-step reuses the definitions embedded from the source; only the
claimed order differs from `gameTick`. -/
def gameTickSpecOrder (ω : Oracle) (g : Game) : Game :=
  let diff := DIFFICULTIES g.difficulty
  let u := g.unicorn.update ω.downHeld
  let obsS := if spawnFires g then g.obstacles ++ [spawnObstacle ω g.score] else g.obstacles
  let csS :=
    if ω.collectibleRoll < 15/1000 then
      magnetStep ω u g.collectibles ++ [spawnCollectible ω]
    else magnetStep ω u g.collectibles
  let psS := if ω.powerupRoll < 5/1000 ∧ g.score > 200 then g.powerups ++ [spawnPowerUp ω] else g.powerups
  let timer2 := if spawnFires g then 0 else g.obstacle_timer + 1
  let obs2 := movePruneObstacles g.game_speed obsS
  let cs2 := movePruneCollectibles g.game_speed csS
  let ps2 := movePrunePowerups g.game_speed psS
  let oc := obstacleCollisions u obs2
  if oc.2.1 then
    { g with unicorn := oc.1, obstacles := oc.2.2, collectibles := cs2
             powerups := ps2, obstacle_timer := timer2, game_over := true }
  else
    let cc := collectibleCollisions (oc.1).get_rect g.score g.coins_collected cs2
    let pc := powerupCollisions oc.1 ps2
    let score' := cc.2.1 + 1
    let speed' := computeGameSpeed diff score'
    { g with unicorn := pc.1, obstacles := oc.2.2, collectibles := cc.1
             powerups := pc.2, score := score', coins_collected := cc.2.2
             game_speed := speed', obstacle_timer := timer2
             ground_offset := pyMod (g.ground_offset + speed') 30 }

/-- A playing state whose obstacle timer fires a spawn on the next tick,
used for the C4 counterexample. -/
def gameC4W : Game := { playingW with obstacle_timer := 100 }

/-- Phase 1 of the corrected per-frame order: player physics plus the
magnet pull on live collectibles. -/
def playerPhase (ω : Oracle) (g : Game) : Game :=
  { g with unicorn := g.unicorn.update ω.downHeld
           collectibles := magnetStep ω (g.unicorn.update ω.downHeld) g.collectibles }

/-- Phase 2: movement and pruning of all entity lists. -/
def entityUpdatePrunePhase (g : Game) : Game :=
  { g with obstacles := movePruneObstacles g.game_speed g.obstacles
           collectibles := movePruneCollectibles g.game_speed g.collectibles
           powerups := movePrunePowerups g.game_speed g.powerups }

/-- Phase 3: the spawner (obstacle timer plus the two Bernoulli spawns). -/
def spawnPhase (ω : Oracle) (g : Game) : Game :=
  { g with obstacles := if spawnFires g then g.obstacles ++ [spawnObstacle ω g.score]
             else g.obstacles
           collectibles := if ω.collectibleRoll < 15/1000 then
               g.collectibles ++ [spawnCollectible ω]
             else g.collectibles
           powerups := if ω.powerupRoll < 5/1000 ∧ g.score > 200 then
               g.powerups ++ [spawnPowerUp ω]
             else g.powerups
           obstacle_timer := if spawnFires g then 0 else g.obstacle_timer + 1 }

/-- Phase 4: collision resolution and scoring (an unshielded obstacle hit
sets game over and skips collectible/power-up handling). -/
def collisionPhase (g : Game) : Game :=
  let oc := obstacleCollisions g.unicorn g.obstacles
  if oc.2.1 then
    { g with unicorn := oc.1, obstacles := oc.2.2, game_over := true }
  else
    let cc := collectibleCollisions (oc.1).get_rect g.score g.coins_collected g.collectibles
    let pc := powerupCollisions oc.1 g.powerups
    { g with unicorn := pc.1, obstacles := oc.2.2, collectibles := cc.1
             powerups := pc.2, score := cc.2.1, coins_collected := cc.2.2 }

/-- Phase 5/6: `score += 1`, game-speed recompute and ground-scroll
advance; skipped when the tick ended in game over. -/
def scoreSpeedGroundPhase (g : Game) : Game :=
  if g.game_over then g
  else
    let score' := g.score + 1
    let speed' := computeGameSpeed (DIFFICULTIES g.difficulty) score'
    { g with score := score', game_speed := speed'
             ground_offset := pyMod (g.ground_offset + speed') 30 }

lemma initial_le_max (d : Difficulty) :
    (DIFFICULTIES d).initial_speed ≤ (DIFFICULTIES d).max_speed := by
  cases d <;> norm_num [DIFFICULTIES]

lemma increment_nonneg (d : Difficulty) :
    0 ≤ (DIFFICULTIES d).speed_increment := by
  cases d <;> norm_num [DIFFICULTIES]

lemma computeGameSpeed_bounds (d : Difficulty) (s : ℕ) :
    (DIFFICULTIES d).initial_speed ≤ computeGameSpeed (DIFFICULTIES d) s ∧
    computeGameSpeed (DIFFICULTIES d) s ≤ (DIFFICULTIES d).max_speed := by
  unfold computeGameSpeed
  refine ⟨le_min (initial_le_max d) ?_, min_le_left _ _⟩
  have h : (0 : ℚ) ≤ (s : ℚ) * (DIFFICULTIES d).speed_increment :=
    mul_nonneg (Nat.cast_nonneg s) (increment_nonneg d)
  linarith

lemma gameTick_game_speed (ω : Oracle) (g : Game) :
    (gameTick ω g).game_speed = g.game_speed ∨
    ∃ s : ℕ, (gameTick ω g).game_speed =
      computeGameSpeed (DIFFICULTIES g.difficulty) s := by
  simp only [gameTick]
  repeat' split
  all_goals first
  | exact Or.inl rfl
  | exact Or.inr ⟨_, rfl⟩

lemma gameTick_difficulty (ω : Oracle) (g : Game) :
    (gameTick ω g).difficulty = g.difficulty := by
  simp only [gameTick]
  repeat' split
  all_goals rfl

lemma update_game_speed (ω : Oracle) (g : Game) :
    (Game.update ω g).game_speed = g.game_speed ∨
    ∃ s : ℕ, (Game.update ω g).game_speed =
      computeGameSpeed (DIFFICULTIES g.difficulty) s := by
  unfold Game.update
  repeat' split
  all_goals first
  | exact Or.inl rfl
  | exact gameTick_game_speed ω g

lemma update_difficulty (ω : Oracle) (g : Game) :
    (Game.update ω g).difficulty = g.difficulty := by
  unfold Game.update
  repeat' split
  all_goals first
  | rfl
  | exact gameTick_difficulty ω g

/-- Claim C1: in every playing session the game speed stays inside the
active difficulty profile's `[initial_speed, max_speed]`: it is set to
`initial_speed` by `reset_game`, every `Game.update` preserves the bounds,
and the recomputed value `min(max_speed, initial_speed + score ×
speed_increment)` satisfies them for every score. -/
theorem C1_game_speed_clamped :
    (∀ d : Difficulty,
        (resetGame d).game_speed = (DIFFICULTIES d).initial_speed ∧
        speedInBounds (resetGame d)) ∧
    (∀ (ω : Oracle) (g : Game), speedInBounds g → speedInBounds (Game.update ω g)) ∧
    (∀ (d : Difficulty) (s : ℕ),
        (DIFFICULTIES d).initial_speed ≤ computeGameSpeed (DIFFICULTIES d) s ∧
        computeGameSpeed (DIFFICULTIES d) s ≤ (DIFFICULTIES d).max_speed) := by
  refine ⟨fun d => ⟨rfl, le_refl _, initial_le_max d⟩, fun ω g hg => ?_, computeGameSpeed_bounds⟩
  unfold speedInBounds
  rw [update_difficulty]
  rcases update_game_speed ω g with h | ⟨s, h⟩
  · rw [h]; exact hg
  · rw [h]; exact computeGameSpeed_bounds g.difficulty s

/-- Witness for C1 at a concrete session and oracle. -/
theorem C1_game_speed_clamped_witness :
    speedInBounds (Game.update oracleW playingW) :=
  C1_game_speed_clamped.2.1 oracleW playingW (by decide)

/-- Claim C8: a jump press while ducking fails and instead stands the
player up (duck state cleared, height and y restored to standing values)
leaving `velocity_y` and `jump_count` untouched; a jump press while dying
is ignored with no state change at all. -/
theorem C8_jump_while_ducking_or_dying :
    (∀ u : Unicorn, u.is_dying = false → u.is_ducking = true →
        u.jump = (false, { u with
          is_ducking := false
          height := unicornNormalHeight
          y := SCREEN_HEIGHT - GROUND_HEIGHT - unicornNormalHeight }) ∧
        (u.jump).2.velocity_y = u.velocity_y ∧
        (u.jump).2.jump_count = u.jump_count) ∧
    (∀ u : Unicorn, u.is_dying = true → u.jump = (false, u)) := by
  constructor
  · intro u hdie hduck
    refine ⟨?_, ?_, ?_⟩ <;> simp [Unicorn.jump, Unicorn.stand_up, hdie, hduck]
  · intro u hdie
    simp [Unicorn.jump, hdie]

/-- Witness for C8 at a concrete ducking player. -/
theorem C8_jump_while_ducking_or_dying_witness :
    duckingW.jump = (false, { duckingW with
      is_ducking := false
      height := unicornNormalHeight
      y := SCREEN_HEIGHT - GROUND_HEIGHT - unicornNormalHeight }) ∧
    (duckingW.jump).2.velocity_y = duckingW.velocity_y ∧
    (duckingW.jump).2.jump_count = duckingW.jump_count :=
  C8_jump_while_ducking_or_dying.1 duckingW (by decide) (by decide)

/-- Claim C9: loading the high-score store from an absent or unparsable
score file raises nothing and returns the all-zero default mapping. -/
theorem C9_load_high_scores_defaults :
    loadHighScores .absent = ⟨0, 0, 0⟩ ∧
    loadHighScores .corrupt = ⟨0, 0, 0⟩ ∧
    (∀ e n h : ℕ, loadHighScores (.valid e n h) = ⟨e, n, h⟩) :=
  ⟨rfl, rfl, fun _ _ _ => rfl⟩

lemma collectibleCollisions_coins (r : Rect) (s k : ℕ) (l : List Collectible) :
    (collectibleCollisions r s k l).2.2 =
      k + l.countP (fun c => r.overlaps c.get_rect) := by
  induction l generalizing s k with
  | nil => simp [collectibleCollisions]
  | cons c rest ih =>
    by_cases h : r.overlaps c.get_rect
    · simp [collectibleCollisions, h, ih, List.countP_cons]
      omega
    · simp [collectibleCollisions, h, ih, List.countP_cons]

/-- Claim C10: the session counter `coins_collected` goes up by exactly one
per collected collectible whatever its kind (the count predicate only looks
at the hit-box, never at `Star` vs `Coin`), so collecting n stars and m
coins yields `coins_collected = n + m`; a colliding star bumps it exactly
like a colliding coin. -/
theorem C10_coins_collected_counts_all_kinds :
    (∀ (r : Rect) (s k : ℕ) (l : List Collectible),
        (collectibleCollisions r s k l).2.2 =
          k + l.countP (fun c => r.overlaps c.get_rect)) ∧
    (∀ (r : Rect) (s k : ℕ) (x y x' y' : ℚ),
        r.overlaps (mkCollectible .star x y).get_rect = true →
        r.overlaps (mkCollectible .coin x' y').get_rect = true →
        (collectibleCollisions r s k [mkCollectible .star x y]).2.2 = k + 1 ∧
        (collectibleCollisions r s k [mkCollectible .coin x' y']).2.2 = k + 1) := by
  refine ⟨collectibleCollisions_coins, fun r s k x y x' y' hs hc => ⟨?_, ?_⟩⟩
  · rw [collectibleCollisions_coins]
    simp [hs]
  · rw [collectibleCollisions_coins]
    simp [hc]

unseal Rat.add Rat.mul Rat.sub Rat.inv in
/-- Witness for C10: one star and one coin, each colliding, each add one. -/
theorem C10_coins_collected_counts_all_kinds_witness :
    (collectibleCollisions wideRectW 0 7 [mkCollectible .star 100 100]).2.2 = 7 + 1 ∧
    (collectibleCollisions wideRectW 0 7 [mkCollectible .coin 200 50]).2.2 = 7 + 1 :=
  C10_coins_collected_counts_all_kinds.2 wideRectW 0 7 100 100 200 50
    (by decide) (by decide)

lemma obstacleCollisions_mem (u : Unicorn) (l : List Obstacle) :
    ∀ o ∈ (obstacleCollisions u l).2.2, o ∈ l := by
  induction u, l using obstacleCollisions.induct with
  | case1 u => simp [obstacleCollisions]
  | case2 u o1 hc hs =>
    simp [obstacleCollisions, hc, hs]
  | case3 u o1 hc hs u' o2 rest' ih =>
    intro o' ho'
    unfold obstacleCollisions at ho'
    simp only [hc, hs, if_true] at ho'
    rcases List.mem_cons.1 ho' with h1 | h1
    · exact List.mem_cons_of_mem _ (h1 ▸ List.mem_cons_self _ _)
    · exact List.mem_cons_of_mem _ (List.mem_cons_of_mem _ (ih _ h1))
  | case4 u o1 rest' hc hs =>
    intro o' ho'
    unfold obstacleCollisions at ho'
    simp only [hc, if_true] at ho'
    rw [if_neg hs] at ho'
    exact ho'
  | case5 u o1 rest' hc ih =>
    intro o' ho'
    unfold obstacleCollisions at ho'
    rw [if_neg hc] at ho'
    rcases List.mem_cons.1 ho' with h1 | h1
    · exact h1 ▸ List.mem_cons_self _ _
    · exact List.mem_cons_of_mem _ (ih _ h1)

lemma spawnObstacle_on_screen (ω : Oracle) (s : ℕ) :
    (spawnObstacle ω s).is_off_screen = false := by
  simp only [spawnObstacle]
  split
  · simp only [mkDragon]
    split <;>
    · simp only [Obstacle.is_off_screen, SCREEN_WIDTH, decide_eq_false_iff_not, not_lt]
      norm_num
  · split
    · simp only [mkRock, Obstacle.is_off_screen, SCREEN_WIDTH, decide_eq_false_iff_not, not_lt]
      norm_num
    · unfold mkRock
      cases ω.rockVariant <;>
      · simp only [Obstacle.is_off_screen, SCREEN_WIDTH, decide_eq_false_iff_not, not_lt]
        norm_num

lemma gameTick_obstacles (ω : Oracle) (g : Game) :
    (gameTick ω g).obstacles =
      (obstacleCollisions (g.unicorn.update ω.downHeld)
        (obstaclesPreCollision ω g)).2.2 := by
  simp only [gameTick]
  split <;> rfl

lemma gameTick_obstacles_on_screen (ω : Oracle) (g : Game) :
    ∀ o ∈ (gameTick ω g).obstacles, o.is_off_screen = false := by
  intro o ho
  rw [gameTick_obstacles] at ho
  have hmem : o ∈ obstaclesPreCollision ω g := obstacleCollisions_mem _ _ _ ho
  unfold obstaclesPreCollision movePruneObstacles at hmem
  split at hmem
  · rcases List.mem_append.1 hmem with h1 | h1
    · simpa using (List.mem_filter.1 h1).2
    · simp only [List.mem_singleton] at h1
      exact h1 ▸ spawnObstacle_on_screen ω g.score
  · simpa using (List.mem_filter.1 hmem).2

unseal Rat.add Rat.mul Rat.sub Rat.inv in
/-- Counterexample to C6: a rock at `x = -1` with width 30 still has
`x + width = 29 ≥ 0`, so `is_off_screen()` returns False, not True. -/
theorem C6_counterexample :
    (mkRock (-1) RockVariant.small).is_off_screen = false ∧
    (mkRock (-1) RockVariant.small).x + (mkRock (-1) RockVariant.small).width = 29 := by
  constructor <;> decide

/-- Claim C6 (amended): `is_off_screen()` is true exactly when the obstacle
is entirely past the left edge (`x + width < 0`); at `x = -1` with width 30
it is false, while at `x = -31` it is true; and no obstacle for which
`is_off_screen()` holds survives a playing tick's pruning — every live
obstacle at the end of a tick has `is_off_screen() = false`. -/
theorem C6_off_screen_pruning :
    (∀ o : Obstacle, o.is_off_screen = true ↔ o.x + o.width < 0) ∧
    (mkRock (-31) RockVariant.small).is_off_screen = true ∧
    (mkRock (-1) RockVariant.small).is_off_screen = false ∧
    (∀ (ω : Oracle) (g : Game), ∀ o ∈ (gameTick ω g).obstacles,
        o.is_off_screen = false) := by
  refine ⟨fun o => by simp [Obstacle.is_off_screen], ?_, ?_, fun ω g => gameTick_obstacles_on_screen ω g⟩
  · unfold mkRock Obstacle.is_off_screen
    norm_num
  · unfold mkRock Obstacle.is_off_screen
    norm_num

unseal Rat.add Rat.mul Rat.sub Rat.inv in
/-- Witness for C6 at a concrete tick: the moved rock is live and on screen. -/
theorem C6_off_screen_pruning_witness : rockC6W.is_off_screen = false :=
  C6_off_screen_pruning.2.2.2 oracleW gameC6W rockC6W (by decide)

lemma stand_up_jump_count (u : Unicorn) : u.stand_up.jump_count = u.jump_count := by
  unfold Unicorn.stand_up
  split <;> rfl

lemma stand_up_velocity (u : Unicorn) : u.stand_up.velocity_y = u.velocity_y := by
  unfold Unicorn.stand_up
  split <;> rfl

lemma tickPowerups_jump_count (u : Unicorn) : u.tickPowerups.jump_count = u.jump_count := rfl

lemma tickPowerups_velocity (u : Unicorn) : u.tickPowerups.velocity_y = u.velocity_y := rfl

lemma update_ground_case (down : Bool) (u : Unicorn) (hdie : u.is_dying = false)
    (h : u.y + (u.velocity_y + (DIFFICULTIES u.difficulty).gravity) ≥
      SCREEN_HEIGHT - GROUND_HEIGHT - u.height) :
    (u.update down).jump_count = 0 ∧ (u.update down).velocity_y = 0 := by
  unfold Unicorn.update
  rw [if_neg (show ¬u.is_dying = true by simp [hdie])]
  dsimp only
  rw [if_pos h]
  split
  · rw [tickPowerups_jump_count, tickPowerups_velocity, stand_up_jump_count, stand_up_velocity]
    exact ⟨rfl, rfl⟩
  · rw [tickPowerups_jump_count, tickPowerups_velocity]
    exact ⟨rfl, rfl⟩

lemma update_air_case (down : Bool) (u : Unicorn) (hdie : u.is_dying = false)
    (h : ¬ u.y + (u.velocity_y + (DIFFICULTIES u.difficulty).gravity) ≥
      SCREEN_HEIGHT - GROUND_HEIGHT - u.height) :
    (u.update down).jump_count = u.jump_count := by
  unfold Unicorn.update
  rw [if_neg (show ¬u.is_dying = true by simp [hdie])]
  dsimp only
  rw [if_neg h, tickPowerups_jump_count]

unseal Rat.add Rat.mul Rat.sub Rat.inv in
/-- Claim C2: `jump_count` never exceeds `max_jumps` (= 2): it is preserved
by every player operation; a non-dying physics update zeroes `jump_count`
and `velocity_y` exactly when the integrated position reaches the ground
clamp, and leaves `jump_count` unchanged otherwise; and from the grounded
initial state two successive jump presses succeed while the third fails
with no state change. -/
theorem C2_jump_count_invariant :
    (∀ u : Unicorn, u.jump_count ≤ maxJumps → ((u.jump).2).jump_count ≤ maxJumps) ∧
    (∀ (down : Bool) (u : Unicorn), u.jump_count ≤ maxJumps →
        (u.update down).jump_count ≤ maxJumps) ∧
    (∀ u : Unicorn, ((u.duck).2).jump_count = u.jump_count ∧
        (u.stand_up).jump_count = u.jump_count) ∧
    (∀ (down : Bool) (u : Unicorn), u.is_dying = false →
        if u.y + (u.velocity_y + (DIFFICULTIES u.difficulty).gravity) ≥
            SCREEN_HEIGHT - GROUND_HEIGHT - u.height
        then (u.update down).jump_count = 0 ∧ (u.update down).velocity_y = 0
        else (u.update down).jump_count = u.jump_count) ∧
    ((Unicorn.init .NORMAL).jump.1 = true ∧
     (((Unicorn.init .NORMAL).jump.2).jump).1 = true ∧
     ((((Unicorn.init .NORMAL).jump.2).jump.2).jump).1 = false ∧
     ((((Unicorn.init .NORMAL).jump.2).jump.2).jump).2 =
       (((Unicorn.init .NORMAL).jump.2).jump).2) := by
  refine ⟨?_, ?_, ?_, ?_, ?_⟩
  · intro u h
    unfold Unicorn.jump
    split
    · exact h
    split
    · rw [stand_up_jump_count]; exact h
    split
    · next hlt => simpa using hlt
    · exact h
  · intro down u h
    unfold Unicorn.update
    split
    · exact h
    · dsimp only
      rw [tickPowerups_jump_count]
      split
      · split
        · rw [stand_up_jump_count]
          exact Nat.zero_le _
        · exact Nat.zero_le _
      · exact h
  · intro u
    constructor
    · unfold Unicorn.duck
      split <;> rfl
    · exact stand_up_jump_count u
  · intro down u hdie
    split
    · next hcond => exact update_ground_case down u hdie hcond
    · next hcond => exact update_air_case down u hdie hcond
  · refine ⟨rfl, rfl, ?_, ?_⟩ <;> decide

unseal Rat.add Rat.mul Rat.sub Rat.inv in
/-- Witness for C2 at the airborne state: the ground-contact case split and
the jump-count bound, instantiated concretely. -/
theorem C2_jump_count_invariant_witness :
    (if uAirW.y + (uAirW.velocity_y + (DIFFICULTIES uAirW.difficulty).gravity) ≥
        SCREEN_HEIGHT - GROUND_HEIGHT - uAirW.height
     then (uAirW.update false).jump_count = 0 ∧ (uAirW.update false).velocity_y = 0
     else (uAirW.update false).jump_count = uAirW.jump_count) ∧
    ((uAirW.jump).2).jump_count ≤ maxJumps :=
  ⟨C2_jump_count_invariant.2.2.2.1 false uAirW (by decide),
   C2_jump_count_invariant.1 uAirW (by decide)⟩

lemma stand_up_shield_active (u : Unicorn) : u.stand_up.shield_active = u.shield_active := by
  unfold Unicorn.stand_up
  split <;> rfl

lemma stand_up_shield_timer (u : Unicorn) : u.stand_up.shield_timer = u.shield_timer := by
  unfold Unicorn.stand_up
  split <;> rfl

lemma stand_up_is_dying (u : Unicorn) : u.stand_up.is_dying = u.is_dying := by
  unfold Unicorn.stand_up
  split <;> rfl

lemma tickPowerups_shield (u : Unicorn) :
    ((u.tickPowerups).shield_active, (u.tickPowerups).shield_timer) =
      shieldTick (u.shield_active, u.shield_timer) := rfl

lemma tickPowerups_is_dying (u : Unicorn) : u.tickPowerups.is_dying = u.is_dying := rfl

lemma update_is_dying (down : Bool) (u : Unicorn) :
    (u.update down).is_dying = u.is_dying := by
  unfold Unicorn.update
  split
  · rfl
  · dsimp only
    rw [tickPowerups_is_dying]
    split
    · split
      · rw [stand_up_is_dying]
      · rfl
    · rfl

lemma update_shield_fields (down : Bool) (u : Unicorn) (hdie : u.is_dying = false) :
    ((u.update down).shield_active, (u.update down).shield_timer) =
      shieldTick (u.shield_active, u.shield_timer) := by
  unfold Unicorn.update
  rw [if_neg (show ¬u.is_dying = true by simp [hdie])]
  dsimp only
  rw [tickPowerups_shield]
  split
  · split
    · rw [stand_up_shield_active, stand_up_shield_timer]
    · rfl
  · rfl

lemma consume_get_rect (u : Unicorn) :
    ({ u with shield_active := false, shield_timer := 0 } : Unicorn).get_rect =
      u.get_rect := rfl

lemma obstacleCollisions_no_hit (u : Unicorn) (l : List Obstacle)
    (h : ∀ p ∈ l, (u.get_rect).overlaps p.get_rect = false) :
    obstacleCollisions u l = (u, false, l) := by
  induction l with
  | nil => rfl
  | cons o rest ih =>
    unfold obstacleCollisions
    rw [h o (List.mem_cons_self o rest)]
    simp only [Bool.false_eq_true, if_false]
    rw [ih (fun p hp => h p (List.mem_cons_of_mem o hp))]

lemma obstacleCollisions_shield_consume (u : Unicorn) (pre post : List Obstacle)
    (o : Obstacle) (hs : u.shield_active = true)
    (hpre : ∀ p ∈ pre, (u.get_rect).overlaps p.get_rect = false)
    (ho : (u.get_rect).overlaps o.get_rect = true)
    (hpost : ∀ p ∈ post, (u.get_rect).overlaps p.get_rect = false) :
    obstacleCollisions u (pre ++ o :: post) =
      ({ u with shield_active := false, shield_timer := 0 }, false, pre ++ post) := by
  induction pre with
  | nil =>
    simp only [List.nil_append]
    unfold obstacleCollisions
    rw [ho]
    simp only [hs, if_true]
    cases post with
    | nil => rfl
    | cons o1 rest' =>
      dsimp only
      rw [obstacleCollisions_no_hit _ rest'
        (fun p hp => by
          rw [consume_get_rect]
          exact hpost p (List.mem_cons_of_mem o1 hp))]
  | cons p pre' ih =>
    have hp : (u.get_rect).overlaps p.get_rect = false :=
      hpre p (List.mem_cons_self p pre')
    simp only [List.cons_append]
    unfold obstacleCollisions
    rw [hp]
    simp only [Bool.false_eq_true, if_false]
    rw [ih (fun q hq => hpre q (List.mem_cons_of_mem p hq))]

lemma shield_timeout (down : Bool) : ∀ (n : ℕ) (u : Unicorn), u.is_dying = false →
    u.shield_active = true → u.shield_timer = (n : ℤ) → 0 < n →
    (((Unicorn.update down)^[n]) u).shield_active = false := by
  intro n
  induction n with
  | zero =>
    intro u _ _ _ h0
    exact absurd h0 (by norm_num)
  | succ n ih =>
    intro u hdie hact htimer _
    have h := update_shield_fields down u hdie
    rw [hact, htimer] at h
    rcases Nat.eq_zero_or_pos n with hn | hn
    · subst hn
      rw [Function.iterate_one]
      have hst : shieldTick (true, ((0 + 1 : ℕ) : ℤ)) = (false, 0) := by
        norm_num [shieldTick]
      rw [hst] at h
      simpa using congrArg Prod.fst h
    · rw [Function.iterate_succ_apply]
      have hst : shieldTick (true, ((n + 1 : ℕ) : ℤ)) = (true, (n : ℤ)) := by
        simp only [shieldTick]
        rw [if_pos trivial]
        rw [if_neg (by push_cast; omega)]
        refine Prod.ext rfl ?_
        push_cast
        ring
      rw [hst] at h
      apply ih
      · rw [update_is_dying]
        exact hdie
      · simpa using congrArg Prod.fst h
      · simpa using congrArg Prod.snd h
      · exact hn

unseal Rat.add Rat.mul Rat.sub Rat.inv in
/-- Claim C3: while the shield is active, the first colliding obstacle is
absorbed: the shield turns off with `shield_timer = 0`, that obstacle is
removed from the live list, and no death results from that hit; and
independently of any collision, a non-dying player with an active shield
of timer n > 0 — in particular the full `shield_duration` of 300 — has
the shield off after n physics updates. -/
theorem C3_shield_one_hit_and_timeout :
    (∀ (u : Unicorn) (pre post : List Obstacle) (o : Obstacle),
        u.shield_active = true →
        (∀ p ∈ pre, (u.get_rect).overlaps p.get_rect = false) →
        (u.get_rect).overlaps o.get_rect = true →
        (∀ p ∈ post, (u.get_rect).overlaps p.get_rect = false) →
        obstacleCollisions u (pre ++ o :: post) =
          ({ u with shield_active := false, shield_timer := 0 }, false, pre ++ post)) ∧
    (∀ (down : Bool) (n : ℕ) (u : Unicorn), u.is_dying = false →
        u.shield_active = true → u.shield_timer = (n : ℤ) → 0 < n →
        (((Unicorn.update down)^[n]) u).shield_active = false) ∧
    (∀ (down : Bool) (u : Unicorn), u.is_dying = false →
        u.shield_active = true → u.shield_timer = shieldDuration →
        (((Unicorn.update down)^[300]) u).shield_active = false) := by
  refine ⟨obstacleCollisions_shield_consume, shield_timeout, fun down u hdie hact ht => ?_⟩
  exact shield_timeout down 300 u hdie hact (by rw [ht]; norm_num [shieldDuration]) (by norm_num)

unseal Rat.add Rat.mul Rat.sub Rat.inv in
/-- Witness for C3: a single colliding rock consumes the shield with no
death, and 300 updates exhaust a fresh shield. -/
theorem C3_shield_one_hit_and_timeout_witness :
    obstacleCollisions uShieldW [rockHitW] =
      ({ uShieldW with shield_active := false, shield_timer := 0 }, false, []) ∧
    (((Unicorn.update false)^[300]) uShieldW).shield_active = false :=
  ⟨C3_shield_one_hit_and_timeout.1 uShieldW [] [] rockHitW (by decide)
      (by simp) (by decide) (by simp),
   C3_shield_one_hit_and_timeout.2.2 false uShieldW (by decide) (by decide) (by decide)⟩

/-- Claim C7: while the magnet is active, a collectible at exact distance
`d` from the player's center with `0 < d < magnet_range` (the float
`math.sqrt` returning that exact root) is displaced by
`8 * (1 - d/range)` along the normalized direction toward the player:
componentwise the displacement is `speed * (dx/d, dy/d)`, and its squared
magnitude is exactly `speed²`. -/
theorem C7_magnet_pull (sqrtA : ℚ → ℚ) (ucx ucy : ℚ) (c : Collectible) (d : ℚ)
    (hsq : sqrtA ((ucx - c.x) * (ucx - c.x) + (ucy - c.y) * (ucy - c.y)) = d)
    (hd2 : d * d = (ucx - c.x) * (ucx - c.x) + (ucy - c.y) * (ucy - c.y))
    (h0 : 0 < d) (hR : d < magnetRange) :
    ((magnetPull sqrtA ucx ucy c).x - c.x =
        8 * (1 - d / magnetRange) * ((ucx - c.x) / d) ∧
     (magnetPull sqrtA ucx ucy c).y - c.y =
        8 * (1 - d / magnetRange) * ((ucy - c.y) / d)) ∧
    ((magnetPull sqrtA ucx ucy c).x - c.x) ^ 2 +
        ((magnetPull sqrtA ucx ucy c).y - c.y) ^ 2 =
      (8 * (1 - d / magnetRange)) ^ 2 := by
  have hne : d ≠ 0 := ne_of_gt h0
  simp only [magnetPull]
  rw [hsq, if_pos ⟨hR, h0⟩]
  dsimp only
  refine ⟨⟨by ring, by ring⟩, ?_⟩
  have key : (ucx - c.x) * (ucx - c.x) + (ucy - c.y) * (ucy - c.y) = d * d := hd2.symm
  calc (c.x + (ucx - c.x) / d * (8 * (1 - d / magnetRange)) - c.x) ^ 2 +
        (c.y + (ucy - c.y) / d * (8 * (1 - d / magnetRange)) - c.y) ^ 2
      = ((ucx - c.x) * (ucx - c.x) + (ucy - c.y) * (ucy - c.y)) *
          (8 * (1 - d / magnetRange) / d) ^ 2 := by ring
    _ = (d * d) * (8 * (1 - d / magnetRange) / d) ^ 2 := by rw [key]
    _ = (8 * (1 - d / magnetRange)) ^ 2 := by
          field_simp
          ring

/-- Witness for C7 at the 30-40-50 configuration. -/
theorem C7_magnet_pull_witness :
    (((magnetPull sqrtW 100 100 collC7W).x - collC7W.x =
        8 * (1 - 50 / magnetRange) * ((100 - collC7W.x) / 50) ∧
      (magnetPull sqrtW 100 100 collC7W).y - collC7W.y =
        8 * (1 - 50 / magnetRange) * ((100 - collC7W.y) / 50)) ∧
     ((magnetPull sqrtW 100 100 collC7W).x - collC7W.x) ^ 2 +
        ((magnetPull sqrtW 100 100 collC7W).y - collC7W.y) ^ 2 =
      (8 * (1 - 50 / magnetRange)) ^ 2) :=
  C7_magnet_pull sqrtW 100 100 collC7W 50
    (by norm_num [sqrtW, collC7W, mkCollectible])
    (by norm_num [collC7W, mkCollectible])
    (by norm_num)
    (by norm_num [magnetRange])

unseal Rat.add Rat.mul Rat.sub Rat.inv in
/-- Counterexample to C5: the coin is marked collected during the tick
(score and the coin counter move), yet it is still present in the live
collectible list at the end of that same frame — it is only pruned by the
next frame. -/
theorem C5_counterexample :
    gameC5W.collectibles = [{ kind := .coin, x := 130, y := 390, collected := false }] ∧
    (gameTick oracleW gameC5W).coins_collected = 1 ∧
    (gameTick oracleW gameC5W).collectibles =
      [{ kind := .coin, x := 121, y := 390, collected := true }] := by
  refine ⟨rfl, ?_, ?_⟩ <;> decide

lemma gameTick_collectibles (ω : Oracle) (g : Game) :
    (gameTick ω g).collectibles =
      (if (obstacleCollisions (g.unicorn.update ω.downHeld)
            (obstaclesPreCollision ω g)).2.1
       then collectiblesPreCollision ω (g.unicorn.update ω.downHeld) g
       else (collectibleCollisions
              ((obstacleCollisions (g.unicorn.update ω.downHeld)
                (obstaclesPreCollision ω g)).1).get_rect
              g.score g.coins_collected
              (collectiblesPreCollision ω (g.unicorn.update ω.downHeld) g)).1) := by
  simp only [gameTick]
  split
  · rfl
  · rfl

lemma gameTick_powerups (ω : Oracle) (g : Game) :
    (gameTick ω g).powerups =
      (if (obstacleCollisions (g.unicorn.update ω.downHeld)
            (obstaclesPreCollision ω g)).2.1
       then powerupsPreCollision ω g
       else (powerupCollisions
              (obstacleCollisions (g.unicorn.update ω.downHeld)
                (obstaclesPreCollision ω g)).1
              (powerupsPreCollision ω g)).2) := by
  simp only [gameTick]
  split
  · rfl
  · rfl

lemma collectibleCollisions_mem (r : Rect) (s k : ℕ) (l : List Collectible) :
    ∀ c ∈ (collectibleCollisions r s k l).1,
      ∃ c₀ ∈ l, (c = c₀ ∧ r.overlaps c₀.get_rect = false) ∨
        (c = { c₀ with collected := true } ∧ r.overlaps c₀.get_rect = true) := by
  induction l generalizing s k with
  | nil => simp [collectibleCollisions]
  | cons c₀ rest ih =>
    intro c hc
    unfold collectibleCollisions at hc
    by_cases h : r.overlaps c₀.get_rect
    · rw [if_pos h] at hc
      rcases List.mem_cons.1 hc with h1 | h1
      · exact ⟨c₀, List.mem_cons_self _ _, Or.inr ⟨h1, h⟩⟩
      · obtain ⟨c₁, hm, hh⟩ := ih _ _ c h1
        exact ⟨c₁, List.mem_cons_of_mem _ hm, hh⟩
    · rw [if_neg h] at hc
      rcases List.mem_cons.1 hc with h1 | h1
      · exact ⟨c₀, List.mem_cons_self _ _,
          Or.inl ⟨h1, Bool.not_eq_true _ ▸ eq_false_of_ne_true h⟩⟩
      · obtain ⟨c₁, hm, hh⟩ := ih _ _ c h1
        exact ⟨c₁, List.mem_cons_of_mem _ hm, hh⟩

lemma activated_get_rect (u : Unicorn) (k : PowerKind) :
    (match k with
      | PowerKind.shield => u.activate_shield
      | PowerKind.magnet => u.activate_magnet).get_rect = u.get_rect := by
  cases k <;> rfl

lemma powerupCollisions_mem (u : Unicorn) (l : List PowerUp) :
    ∀ p ∈ (powerupCollisions u l).2,
      ∃ p₀ ∈ l, (p = p₀ ∧ (u.get_rect).overlaps p₀.get_rect = false) ∨
        (p = { p₀ with collected := true } ∧ (u.get_rect).overlaps p₀.get_rect = true) := by
  induction l generalizing u with
  | nil => simp [powerupCollisions]
  | cons p₀ rest ih =>
    intro p hp
    unfold powerupCollisions at hp
    by_cases h : (u.get_rect).overlaps p₀.get_rect
    · rw [if_pos h] at hp
      dsimp only at hp
      rcases List.mem_cons.1 hp with h1 | h1
      · exact ⟨p₀, List.mem_cons_self _ _, Or.inr ⟨h1, h⟩⟩
      · obtain ⟨p₁, hm, hh⟩ := ih _ p h1
        rw [activated_get_rect u p₀.kind] at hh
        exact ⟨p₁, List.mem_cons_of_mem _ hm, hh⟩
    · rw [if_neg h] at hp
      dsimp only at hp
      rcases List.mem_cons.1 hp with h1 | h1
      · exact ⟨p₀, List.mem_cons_self _ _,
          Or.inl ⟨h1, Bool.not_eq_true _ ▸ eq_false_of_ne_true h⟩⟩
      · obtain ⟨p₁, hm, hh⟩ := ih _ p h1
        exact ⟨p₁, List.mem_cons_of_mem _ hm, hh⟩

lemma spawnCollectible_unmarked (ω : Oracle) : (spawnCollectible ω).collected = false := by
  unfold spawnCollectible
  split <;> split <;> rfl

lemma spawnCollectible_on_screen (ω : Oracle) : (spawnCollectible ω).is_off_screen = false := by
  unfold spawnCollectible mkCollectible
  split <;> split <;>
  · simp only [Collectible.is_off_screen, Collectible.width, SCREEN_WIDTH,
      decide_eq_false_iff_not, not_lt]
    norm_num

lemma collectiblesPreCollision_facts (ω : Oracle) (u : Unicorn) (g : Game) :
    ∀ c ∈ collectiblesPreCollision ω u g,
      c.collected = false ∧ c.is_off_screen = false := by
  intro c hc
  unfold collectiblesPreCollision movePruneCollectibles at hc
  have hfilter : ∀ c',
      c' ∈ ((magnetStep ω u g.collectibles).map
        (Collectible.update g.game_speed)).filter
          (fun c => !c.is_off_screen && !c.collected) →
      c'.collected = false ∧ c'.is_off_screen = false := by
    intro c' hc'
    have := (List.mem_filter.1 hc').2
    simp only [Bool.and_eq_true, Bool.not_eq_true'] at this
    exact ⟨this.2, this.1⟩
  split at hc
  · rcases List.mem_append.1 hc with h1 | h1
    · exact hfilter c h1
    · simp only [List.mem_singleton] at h1
      subst h1
      exact ⟨spawnCollectible_unmarked ω, spawnCollectible_on_screen ω⟩
  · exact hfilter c hc

lemma spawnPowerUp_unmarked (ω : Oracle) : (spawnPowerUp ω).collected = false := rfl

lemma spawnPowerUp_on_screen (ω : Oracle) : (spawnPowerUp ω).is_off_screen = false := by
  simp only [spawnPowerUp, mkPowerUp, PowerUp.is_off_screen, SCREEN_WIDTH,
    decide_eq_false_iff_not, not_lt]
  norm_num

lemma powerupsPreCollision_facts (ω : Oracle) (g : Game) :
    ∀ p ∈ powerupsPreCollision ω g,
      p.collected = false ∧ p.is_off_screen = false := by
  intro p hp
  unfold powerupsPreCollision movePrunePowerups at hp
  have hfilter : ∀ p',
      p' ∈ (g.powerups.map (PowerUp.update g.game_speed)).filter
        (fun p => !p.is_off_screen && !p.collected) →
      p'.collected = false ∧ p'.is_off_screen = false := by
    intro p' hp'
    have := (List.mem_filter.1 hp').2
    simp only [Bool.and_eq_true, Bool.not_eq_true'] at this
    exact ⟨this.2, this.1⟩
  split at hp
  · rcases List.mem_append.1 hp with h1 | h1
    · exact hfilter p h1
    · simp only [List.mem_singleton] at h1
      subst h1
      exact ⟨spawnPowerUp_unmarked ω, spawnPowerUp_on_screen ω⟩
  · exact hfilter p hp

lemma obstacleCollisions_get_rect (u : Unicorn) (l : List Obstacle) :
    ((obstacleCollisions u l).1).get_rect = u.get_rect := by
  induction u, l using obstacleCollisions.induct with
  | case1 u => rfl
  | case2 u o1 hc hs =>
    unfold obstacleCollisions
    rw [hc]
    simp only [hs, if_true]
    exact consume_get_rect u
  | case3 u o1 hc hs u' o2 rest' ih =>
    unfold obstacleCollisions
    rw [hc]
    simp only [hs, if_true]
    exact ih
  | case4 u o1 rest' hc hs =>
    unfold obstacleCollisions
    rw [hc]
    simp only [if_true]
    rw [if_neg hs]
    rfl
  | case5 u o1 rest' hc ih =>
    unfold obstacleCollisions
    rw [if_neg hc]
    exact ih

lemma powerupCollisions_get_rect (u : Unicorn) (l : List PowerUp) :
    ((powerupCollisions u l).1).get_rect = u.get_rect := by
  induction l generalizing u with
  | nil => rfl
  | cons p rest ih =>
    unfold powerupCollisions
    by_cases h : (u.get_rect).overlaps p.get_rect
    · rw [if_pos h]
      dsimp only
      cases hk : p.kind <;> rw [ih]
      · rfl
      · rfl
    · rw [if_neg h]
      dsimp only
      exact ih u

lemma marked_collectible_get_rect (c : Collectible) :
    ({ c with collected := true } : Collectible).get_rect = c.get_rect := rfl

lemma marked_collectible_off_screen (c : Collectible) :
    ({ c with collected := true } : Collectible).is_off_screen = c.is_off_screen := rfl

lemma marked_powerup_get_rect (p : PowerUp) :
    ({ p with collected := true } : PowerUp).get_rect = p.get_rect := rfl

lemma marked_powerup_off_screen (p : PowerUp) :
    ({ p with collected := true } : PowerUp).is_off_screen = p.is_off_screen := rfl

unseal Rat.add Rat.mul Rat.sub Rat.inv in
/-- Claim C5 (amended): entities that go off-screen are removed within the
frame (no live obstacle, collectible or power-up at the end of a playing
tick is off-screen), but a collectible or power-up marked collected is only
removed by the prune step at the start of the *next* frame: at the end of
the marking frame it is still live (flagged), and every flagged survivor
is one the player's hit-box intersects that frame; concretely, the marked
coin of `gameC5W` is gone after the following tick. -/
theorem C5_entity_removal :
    (∀ (ω : Oracle) (g : Game), ∀ c ∈ (gameTick ω g).collectibles,
        c.collected = true →
        ((g.unicorn.update ω.downHeld).get_rect).overlaps c.get_rect = true) ∧
    (∀ (ω : Oracle) (g : Game), ∀ c ∈ (gameTick ω g).collectibles,
        c.is_off_screen = false) ∧
    (∀ (ω : Oracle) (g : Game), ∀ p ∈ (gameTick ω g).powerups,
        p.collected = true →
        ((g.unicorn.update ω.downHeld).get_rect).overlaps p.get_rect = true) ∧
    (∀ (ω : Oracle) (g : Game), ∀ p ∈ (gameTick ω g).powerups,
        p.is_off_screen = false) ∧
    (∀ (ω : Oracle) (g : Game), ∀ o ∈ (gameTick ω g).obstacles,
        o.is_off_screen = false) ∧
    (gameTick oracleW (gameTick oracleW gameC5W)).collectibles = [] := by
  refine ⟨?_, ?_, ?_, ?_, fun ω g => gameTick_obstacles_on_screen ω g, by decide⟩
  · intro ω g c hc hflag
    rw [gameTick_collectibles] at hc
    split at hc
    · have := (collectiblesPreCollision_facts ω _ g c hc).1
      rw [hflag] at this
      exact absurd this (by simp)
    · obtain ⟨c₀, hm, hcase⟩ := collectibleCollisions_mem _ _ _ _ c hc
      rcases hcase with ⟨heq, hov⟩ | ⟨heq, hov⟩
      · have := (collectiblesPreCollision_facts ω _ g c₀ hm).1
        rw [← heq, hflag] at this
        exact absurd this (by simp)
      · subst heq
        rw [marked_collectible_get_rect]
        rw [obstacleCollisions_get_rect] at hov
        exact hov
  · intro ω g c hc
    rw [gameTick_collectibles] at hc
    split at hc
    · exact (collectiblesPreCollision_facts ω _ g c hc).2
    · obtain ⟨c₀, hm, hcase⟩ := collectibleCollisions_mem _ _ _ _ c hc
      rcases hcase with ⟨heq, _⟩ | ⟨heq, _⟩
      · exact heq ▸ (collectiblesPreCollision_facts ω _ g c₀ hm).2
      · rw [heq, marked_collectible_off_screen]
        exact (collectiblesPreCollision_facts ω _ g c₀ hm).2
  · intro ω g p hp hflag
    rw [gameTick_powerups] at hp
    split at hp
    · have := (powerupsPreCollision_facts ω g p hp).1
      rw [hflag] at this
      exact absurd this (by simp)
    · obtain ⟨p₀, hm, hcase⟩ := powerupCollisions_mem _ _ p hp
      rcases hcase with ⟨heq, hov⟩ | ⟨heq, hov⟩
      · have := (powerupsPreCollision_facts ω g p₀ hm).1
        rw [← heq, hflag] at this
        exact absurd this (by simp)
      · subst heq
        rw [marked_powerup_get_rect]
        rw [obstacleCollisions_get_rect] at hov
        exact hov
  · intro ω g p hp
    rw [gameTick_powerups] at hp
    split at hp
    · exact (powerupsPreCollision_facts ω g p hp).2
    · obtain ⟨p₀, hm, hcase⟩ := powerupCollisions_mem _ _ p hp
      rcases hcase with ⟨heq, _⟩ | ⟨heq, _⟩
      · exact heq ▸ (powerupsPreCollision_facts ω g p₀ hm).2
      · rw [heq, marked_powerup_off_screen]
        exact (powerupsPreCollision_facts ω g p₀ hm).2

unseal Rat.add Rat.mul Rat.sub Rat.inv in
/-- Witness for C5: the coin that survives `gameC5W`'s tick flagged as
collected does intersect that tick's player hit-box. -/
theorem C5_entity_removal_witness :
    ((gameC5W.unicorn.update oracleW.downHeld).get_rect).overlaps
      ({ kind := CollKind.coin, x := 121, y := 390, collected := true } : Collectible).get_rect
      = true :=
  C5_entity_removal.1 oracleW gameC5W
    { kind := CollKind.coin, x := 121, y := 390, collected := true } (by decide) rfl

unseal Rat.add Rat.mul Rat.sub Rat.inv in
/-- Counterexample to C4: on the tick that spawns an obstacle, the code
(entities updated and pruned *before* the spawner runs) leaves the new rock
un-moved at x = 950, while the spec's order (spawner before update/prune)
would move it to x = 941 in its spawn tick — the two orders produce
different states. -/
theorem C4_counterexample :
    (gameTick oracleW gameC4W).obstacles = [mkRock 950 RockVariant.small] ∧
    (gameTickSpecOrder oracleW gameC4W).obstacles =
      [{ kind := .rock RockVariant.small, x := 941, y := 405, width := 30, height := 35 }] ∧
    gameTick oracleW gameC4W ≠ gameTickSpecOrder oracleW gameC4W := by
  refine ⟨by decide, by decide, by decide⟩

/-- Claim C4 (amended): on every playing tick (`game_over = False` at
entry) the loop's steps compose in this exact order: player physics (with
the magnet pull), then movement and pruning of all entity lists, then the
spawner, then collision & scoring, then the score increment / game-speed
recompute / ground-scroll advance — i.e. the spawner runs *after* the
update/prune step, not before it as the spec's listing claims. -/
theorem C4_corrected_order (ω : Oracle) (g : Game) (hgo : g.game_over = false) :
    gameTick ω g =
      scoreSpeedGroundPhase (collisionPhase (spawnPhase ω
        (entityUpdatePrunePhase (playerPhase ω g)))) := by
  simp only [gameTick, playerPhase, entityUpdatePrunePhase, spawnPhase, collisionPhase,
    obstaclesPreCollision, collectiblesPreCollision, powerupsPreCollision, spawnFires]
  repeat' split
  all_goals first
  | rfl
  | simp [scoreSpeedGroundPhase, hgo]

/-- Witness for C4 at the concrete spawning state. -/
theorem C4_corrected_order_witness :
    gameTick oracleW gameC4W =
      scoreSpeedGroundPhase (collisionPhase (spawnPhase oracleW
        (entityUpdatePrunePhase (playerPhase oracleW gameC4W)))) :=
  C4_corrected_order oracleW gameC4W rfl

end UnicornDash
